import Mathlib

/-!
Verification of the VectorVibe cosine-similarity core.

This file shallowly embeds the numeric core of the repository:

* `src/utils/mathUtils.ts` — `parseVectorString` and
  `calculateCosineSimilarity`;
* `src/components/VectorChart.tsx` — the 2D projector (`getCoord` with its
  scale computation) and the 3D rotation state (`rotation`,
  `handleMouseMove`).

Modelling choices:

* JavaScript numbers are modelled as exact numbers: the parser produces
  rationals (`ℚ`, exact values of finite decimal literals) and the
  calculator works over the reals (`ℝ`), since it uses `Math.sqrt`,
  `Math.acos` and `Math.PI`. `NaN` returned by `parseFloat` is modelled as
  `none`. The literal word `Infinity`, which `parseFloat` also accepts, has
  no rational value and is outside the model (it never arises in the
  properties below).
* The exact models collapse the IEEE-double overflow path of the
  calculator, so the calculator is additionally embedded a second time over
  `JsNum`, a double-semantics number model with `±Infinity` overflow past
  `Number.MAX_VALUE` and `NaN` propagation; it decides the clamp-range
  property, which machine arithmetic does falsify.
* Strings are processed as `List Char`; the separator class models the
  ASCII part of the regex `[\s,]+` together with `trim`.
-/

namespace VectorVibe

/-- Whitespace as matched by the `\s` class of the splitting regex and by
`String.prototype.trim` (ASCII part: space, tab, LF, VT, FF, CR). -/
def isJsSpace (c : Char) : Bool :=
  c = ' ' || c = '\t' || c = '\n' || c = '\x0b' || c = '\x0c' || c = '\r'

/-- A character matched by the splitting regex `[\s,]+`. -/
def isSepChar (c : Char) : Bool :=
  isJsSpace c || c = ','

mutual

/-- `input.split(/[\s,]+/)`, token-building mode: `cur` holds the (reversed)
characters of the token being built. -/
def splitTok : List Char → List Char → List (List Char)
  | [], cur => [cur.reverse]
  | c :: rest, cur =>
    if isSepChar c then cur.reverse :: splitSep rest
    else splitTok rest (c :: cur)

/-- `input.split(/[\s,]+/)`, separator-skipping mode: the regex `+` makes a
maximal run of separators a single split point. -/
def splitSep : List Char → List (List Char)
  | [] => [[]]
  | c :: rest =>
    if isSepChar c then splitSep rest
    else splitTok rest [c]

end

/-- The JS `input.split(/[\s,]+/)`: a leading separator run yields a leading
empty token, a trailing run a trailing empty token. -/
def jsSplit (l : List Char) : List (List Char) :=
  splitTok l []

/-- `s.trim()` on a token (a no-op on tokens produced by `jsSplit`, faithful
to the source which calls it anyway). -/
def jsTrim (l : List Char) : List Char :=
  ((l.dropWhile isJsSpace).reverse.dropWhile isJsSpace).reverse

/-- Value of a digit character. -/
def digitVal (c : Char) : ℕ :=
  c.toNat - '0'.toNat

/-- Value of a digit run, most significant first. -/
def digitsVal (l : List Char) : ℕ :=
  l.foldl (fun acc c => acc * 10 + digitVal c) 0

/-- Strip an optional leading sign, reporting whether it was `-`. -/
def stripSign (l : List Char) : Bool × List Char :=
  match l with
  | [] => (false, [])
  | c :: rest =>
    if c = '-' then (true, rest)
    else if c = '+' then (false, rest)
    else (false, c :: rest)

/-- The exponent part of `parseFloat`: after `e`/`E`, an optional sign and a
digit run; a malformed exponent contributes `0` (JS backtracks and keeps the
mantissa alone). -/
def parseExponent (l : List Char) : ℤ :=
  let s := stripSign l
  let ds := s.2.takeWhile Char.isDigit
  if ds = [] then 0
  else if s.1 then -(digitsVal ds : ℤ) else (digitsVal ds : ℤ)

/-- Exact value of a parsed decimal literal: sign, integer-part value,
fraction-part value, number of fraction digits, decimal exponent. -/
def ratVal (neg : Bool) (ip fp fl : ℕ) (e : ℤ) : ℚ :=
  (if neg then -1 else 1) * (((ip : ℚ) + (fp : ℚ) / 10 ^ fl) * 10 ^ e)

/-- JS `parseFloat` on a token: skip leading whitespace, optional sign, a
decimal mantissa needing at least one digit, optional exponent; trailing
garbage is ignored; no parsable numeric head gives `NaN`, modelled `none`. -/
def jsParseFloat (l : List Char) : Option ℚ :=
  let s := stripSign (l.dropWhile isJsSpace)
  let intDigits := s.2.takeWhile Char.isDigit
  let l2 := s.2.dropWhile Char.isDigit
  let fracDigits :=
    match l2 with
    | '.' :: rest => rest.takeWhile Char.isDigit
    | _ => []
  let l3 :=
    match l2 with
    | '.' :: rest => rest.dropWhile Char.isDigit
    | _ => l2
  if intDigits = [] ∧ fracDigits = [] then none
  else
    let e : ℤ :=
      match l3 with
      | 'e' :: rest => parseExponent rest
      | 'E' :: rest => parseExponent rest
      | _ => 0
    some (ratVal s.1 (digitsVal intDigits) (digitsVal fracDigits) fracDigits.length e)

/-- `parseVectorString` from `src/utils/mathUtils.ts`: split on runs of
whitespace/commas, `parseFloat` each trimmed token (`map`), keep the
non-`NaN` results in order (`filter(!isNaN)`). -/
def parseVectorString (input : String) : List ℚ :=
  ((jsSplit input.data).map (fun s => jsParseFloat (jsTrim s))).filterMap id

example : parseVectorString "2, 1" = [2, 1] := by
  have h : parseVectorString "2, 1" = [ratVal false 2 0 0 0, ratVal false 1 0 0 0] := rfl
  rw [h]; norm_num [ratVal]

example : parseVectorString "1 2  3" = [1, 2, 3] := by
  have h : parseVectorString "1 2  3" =
      [ratVal false 1 0 0 0, ratVal false 2 0 0 0, ratVal false 3 0 0 0] := rfl
  rw [h]; norm_num [ratVal]

example : parseVectorString "a, 2, b" = [2] := by
  have h : parseVectorString "a, 2, b" = [ratVal false 2 0 0 0] := rfl
  rw [h]; norm_num [ratVal]

example : parseVectorString "" = [] := rfl

example : parseVectorString "2px" = [2] := by
  have h : parseVectorString "2px" = [ratVal false 2 0 0 0] := rfl
  rw [h]; norm_num [ratVal]

example : parseVectorString "-1.5e2, .25" = [-150, 1/4] := by
  have h : parseVectorString "-1.5e2, .25" =
      [ratVal true 1 5 1 2, ratVal false 0 25 2 0] := rfl
  rw [h]; norm_num [ratVal]

/-- The `VectorResult` record of `src/types.ts` as populated by
`calculateCosineSimilarity`. -/
structure VectorResult where
  dotProduct : ℝ
  magnitudeA : ℝ
  magnitudeB : ℝ
  cosineSimilarity : ℝ
  angleDegrees : ℝ
  dimensions : ℕ

/-- The `dotProduct` accumulator of the loop in `calculateCosineSimilarity`:
`dotProduct += vecA[i] * vecB[i]` for `i < vecA.length` (the guard has made
the lengths equal). -/
def dotProduct (a b : List ℝ) : ℝ :=
  (List.zipWith (fun x y => x * y) a b).sum

/-- The `sumSqA` / `sumSqB` accumulators: `sumSq += v[i] * v[i]`. -/
def sumSq (v : List ℝ) : ℝ :=
  (v.map (fun x => x * x)).sum

/-- `Math.sqrt(sumSq)`, the Euclidean magnitude as computed by the source. -/
noncomputable def magnitude (v : List ℝ) : ℝ :=
  Real.sqrt (sumSq v)

/-- `Math.max(-1, Math.min(1, x))`, the clamping step of the source. -/
def clamp (x : ℝ) : ℝ :=
  max (-1) (min 1 x)

/-- `calculateCosineSimilarity` from `src/utils/mathUtils.ts`. The three
`let`-bound intermediate values of the source are inlined. -/
noncomputable def calculateCosineSimilarity (vecA vecB : List ℝ) :
    Option VectorResult :=
  if vecA.length = 0 ∨ vecB.length = 0 ∨ vecA.length ≠ vecB.length then none
  else if magnitude vecA = 0 ∨ magnitude vecB = 0 then
    some ⟨dotProduct vecA vecB, magnitude vecA, magnitude vecB, 0, 0, vecA.length⟩
  else
    some ⟨dotProduct vecA vecB, magnitude vecA, magnitude vecB,
      clamp (dotProduct vecA vecB / (magnitude vecA * magnitude vecB)),
      Real.arccos (clamp (dotProduct vecA vecB / (magnitude vecA * magnitude vecB))) *
        (180 / Real.pi),
      vecA.length⟩

/-- `size / 2` with `size = 300` in the 2D branch of `VectorChart`. -/
noncomputable def center2D : ℝ := 300 / 2

/-- `maxVal` of the 2D branch: largest absolute component across both
vectors, floored at 1, padded by 20%. -/
noncomputable def maxVal2D (a0 a1 b0 b1 : ℝ) : ℝ :=
  max (max (max (max |a0| |a1|) |b0|) |b1|) 1 * 1.2

/-- `scale` of the 2D branch: `(center - 20) / maxVal`. -/
noncomputable def scale2D (a0 a1 b0 b1 : ℝ) : ℝ :=
  (center2D - 20) / maxVal2D a0 a1 b0 b1

/-- `getCoord` of the 2D branch: origin at the canvas center, Y flipped for
SVG. -/
noncomputable def getCoord (a0 a1 b0 b1 x y : ℝ) : ℝ × ℝ :=
  (center2D + x * scale2D a0 a1 b0 b1, center2D - y * scale2D a0 a1 b0 b1)

/-- The 3D rotation state `{x, y}` of `VectorChart` (`x` = pitch, `y` = yaw). -/
structure Rotation where
  x : ℝ
  y : ℝ

/-- `useState({ x: -20, y: 45 })`. -/
noncomputable def initialRotation : Rotation := ⟨-20, 45⟩

/-- The `setRotation` update of `handleMouseMove`: pitch is clamped to
`[-90, 90]`, yaw is incremented freely. -/
noncomputable def updateRotation (prev : Rotation) (deltaX deltaY : ℝ) : Rotation :=
  ⟨max (-90) (min 90 (prev.x + deltaY * 0.5)), prev.y + deltaX * 0.5⟩

/-- The rotation state reached from the initial state by a sequence of drag
moves `(deltaX, deltaY)`. -/
noncomputable def applyDrags (ds : List (ℝ × ℝ)) : Rotation :=
  ds.foldl (fun st d => updateRotation st d.1 d.2) initialRotation

/-!
### Double-semantics model of the calculator

The real-valued `calculateCosineSimilarity` above collapses the IEEE-double
error path of the source: in JavaScript, finite inputs of magnitude above
about `1e154` overflow the squared sums to `Infinity`, the quotient
`Infinity / Infinity` is `NaN`, and `Math.min` / `Math.max` / `Math.acos`
propagate `NaN`. To settle this behaviour, `JsNum` models a JS number as a
finite value (kept exact, i.e. rounding of in-range results is ignored),
a signed infinity, or `NaN`; each operation below follows the IEEE/JS
semantics of the corresponding operator on these cases, with results of
magnitude beyond `Number.MAX_VALUE` overflowing to infinity. -/

/-- `Number.MAX_VALUE`, the largest finite IEEE binary64 value
`1.7976931348623157e308`. -/
noncomputable def maxDouble : ℝ := 17976931348623157 * 10 ^ 292

/-- A JavaScript number: a finite value (exact), `±Infinity`, or `NaN`
(`inf true` is `-Infinity`). -/
inductive JsNum where
  | num : ℝ → JsNum
  | inf : Bool → JsNum
  | nan : JsNum

/-- Round a finite exact result into a JS number: overflow past
`±Number.MAX_VALUE` gives `±Infinity` (in-range values are kept exact). -/
noncomputable def ofReal (x : ℝ) : JsNum :=
  if maxDouble < x then .inf false
  else if x < -maxDouble then .inf true
  else .num x

/-- JS `+` on numbers: `NaN` propagates, `Infinity + -Infinity = NaN`. -/
noncomputable def addJ : JsNum → JsNum → JsNum
  | .nan, _ => .nan
  | _, .nan => .nan
  | .inf a, .inf b => if a = b then .inf a else .nan
  | .inf a, .num _ => .inf a
  | .num _, .inf b => .inf b
  | .num x, .num y => ofReal (x + y)

/-- JS `*` on numbers: `NaN` propagates, `Infinity * 0 = NaN`, signs
multiply. -/
noncomputable def mulJ : JsNum → JsNum → JsNum
  | .nan, _ => .nan
  | _, .nan => .nan
  | .inf a, .inf b => .inf (xor a b)
  | .inf a, .num x => if x = 0 then .nan else if x < 0 then .inf (!a) else .inf a
  | .num x, .inf b => if x = 0 then .nan else if x < 0 then .inf (!b) else .inf b
  | .num x, .num y => ofReal (x * y)

/-- JS `/` on numbers: `NaN` propagates, `Infinity / Infinity = NaN`,
`x / Infinity = 0`, `x / 0 = ±Infinity` for `x ≠ 0` and `0 / 0 = NaN`. -/
noncomputable def divJ : JsNum → JsNum → JsNum
  | .nan, _ => .nan
  | _, .nan => .nan
  | .inf _, .inf _ => .nan
  | .inf a, .num x => if x < 0 then .inf (!a) else .inf a
  | .num _, .inf _ => .num 0
  | .num x, .num y =>
    if y = 0 then (if x = 0 then .nan else if x < 0 then .inf true else .inf false)
    else ofReal (x / y)

/-- JS `Math.sqrt`: `NaN` for `NaN` and negative arguments,
`sqrt(Infinity) = Infinity`. -/
noncomputable def sqrtJ : JsNum → JsNum
  | .nan => .nan
  | .inf false => .inf false
  | .inf true => .nan
  | .num x => if x < 0 then .nan else .num (Real.sqrt x)

/-- JS `Math.min` of two numbers: `NaN` wins over everything. -/
noncomputable def minJ : JsNum → JsNum → JsNum
  | .nan, _ => .nan
  | _, .nan => .nan
  | .inf true, _ => .inf true
  | _, .inf true => .inf true
  | .inf false, y => y
  | x, .inf false => x
  | .num x, .num y => .num (min x y)

/-- JS `Math.max` of two numbers: `NaN` wins over everything. -/
noncomputable def maxJ : JsNum → JsNum → JsNum
  | .nan, _ => .nan
  | _, .nan => .nan
  | .inf false, _ => .inf false
  | _, .inf false => .inf false
  | .inf true, y => y
  | x, .inf true => x
  | .num x, .num y => .num (max x y)

/-- JS `Math.acos`: `NaN` outside `[-1, 1]` (and on `NaN`/`±Infinity`). -/
noncomputable def acosJ : JsNum → JsNum
  | .num x => if x < -1 ∨ 1 < x then .nan else .num (Real.arccos x)
  | _ => .nan

/-- The JS strict comparison `=== 0` (false on `NaN` and `±Infinity`). -/
def isZeroJ : JsNum → Prop
  | .num x => x = 0
  | _ => False

/-- The `dotProduct` accumulator of the source loop under double
semantics (left-to-right accumulation from `0`, as the loop runs). -/
noncomputable def dotJ (a b : List JsNum) : JsNum :=
  (List.zipWith mulJ a b).foldl addJ (.num 0)

/-- The `sumSq` accumulators of the source loop under double semantics. -/
noncomputable def sumSqJ (v : List JsNum) : JsNum :=
  (v.map (fun x => mulJ x x)).foldl addJ (.num 0)

/-- `Math.sqrt(sumSq)` under double semantics. -/
noncomputable def magnitudeJ (v : List JsNum) : JsNum :=
  sqrtJ (sumSqJ v)

/-- The `VectorResult` record with double-semantics fields. -/
structure VectorResultJs where
  dotProduct : JsNum
  magnitudeA : JsNum
  magnitudeB : JsNum
  cosineSimilarity : JsNum
  angleDegrees : JsNum
  dimensions : ℕ

open Classical in
/-- `calculateCosineSimilarity` from `src/utils/mathUtils.ts` under double
semantics: the same guards, loop, clamp and `acos·(180/π)` as the real
model, but with each arithmetic step following `JsNum` (so overflow and
`NaN` propagate as in JavaScript). -/
noncomputable def calculateCosineSimilarityJs (vecA vecB : List JsNum) :
    Option VectorResultJs :=
  if vecA.length = 0 ∨ vecB.length = 0 ∨ vecA.length ≠ vecB.length then none
  else if isZeroJ (magnitudeJ vecA) ∨ isZeroJ (magnitudeJ vecB) then
    some ⟨dotJ vecA vecB, magnitudeJ vecA, magnitudeJ vecB, .num 0, .num 0, vecA.length⟩
  else
    some ⟨dotJ vecA vecB, magnitudeJ vecA, magnitudeJ vecB,
      maxJ (.num (-1)) (minJ (.num 1)
        (divJ (dotJ vecA vecB) (mulJ (magnitudeJ vecA) (magnitudeJ vecB)))),
      mulJ (acosJ (maxJ (.num (-1)) (minJ (.num 1)
          (divJ (dotJ vecA vecB) (mulJ (magnitudeJ vecA) (magnitudeJ vecB))))))
        (divJ (.num 180) (.num Real.pi)),
      vecA.length⟩

/-! ### Helper lemmas -/

/-- The loop's dot product is the mathematical `Σ aᵢ·bᵢ` (indexing as the
source does, `i < vecA.length`, lengths being equal). -/
lemma dotProduct_eq_sum_range (a : List ℝ) :
    ∀ b : List ℝ, a.length = b.length →
      dotProduct a b = ∑ i ∈ Finset.range a.length, a.getD i 0 * b.getD i 0 := by
  induction a with
  | nil => intro b _; simp [dotProduct]
  | cons x xs ih =>
    intro b hb
    cases b with
    | nil => simp at hb
    | cons y ys =>
      have h' : xs.length = ys.length := by simpa using hb
      simp only [dotProduct, List.zipWith_cons_cons, List.sum_cons, List.length_cons]
      rw [Finset.sum_range_succ']
      simp only [List.getD_cons_succ, List.getD_cons_zero]
      rw [← ih ys h']
      simp [dotProduct]
      ring

/-- The loop's sum of squares is the mathematical `Σ vᵢ²`. -/
lemma sumSq_eq_sum_range (v : List ℝ) :
    sumSq v = ∑ i ∈ Finset.range v.length, v.getD i 0 ^ 2 := by
  induction v with
  | nil => simp [sumSq]
  | cons x xs ih =>
    simp only [sumSq, List.map_cons, List.sum_cons, List.length_cons]
    rw [Finset.sum_range_succ']
    simp only [List.getD_cons_succ, List.getD_cons_zero]
    rw [← ih]
    simp [sumSq]
    ring

/-- Unfolding of the non-degenerate branch of `calculateCosineSimilarity`. -/
lemma calc_main_branch (a b : List ℝ) (ha : a ≠ []) (hb : b ≠ [])
    (hlen : a.length = b.length) (hma : magnitude a ≠ 0) (hmb : magnitude b ≠ 0) :
    calculateCosineSimilarity a b =
      some ⟨dotProduct a b, magnitude a, magnitude b,
        clamp (dotProduct a b / (magnitude a * magnitude b)),
        Real.arccos (clamp (dotProduct a b / (magnitude a * magnitude b))) *
          (180 / Real.pi),
        a.length⟩ := by
  unfold calculateCosineSimilarity
  rw [if_neg (by simp [List.length_eq_zero, ha, hb, hlen]),
    if_neg (by simp [hma, hmb])]

/-- Unfolding of the zero-magnitude branch of `calculateCosineSimilarity`. -/
lemma calc_zero_branch (a b : List ℝ) (ha : a ≠ []) (hb : b ≠ [])
    (hlen : a.length = b.length) (hm : magnitude a = 0 ∨ magnitude b = 0) :
    calculateCosineSimilarity a b =
      some ⟨dotProduct a b, magnitude a, magnitude b, 0, 0, a.length⟩ := by
  unfold calculateCosineSimilarity
  rw [if_neg (by simp [List.length_eq_zero, ha, hb, hlen]), if_pos hm]

lemma magnitude_30 : magnitude [(3 : ℝ), 0] = 3 := by
  have h : sumSq [(3 : ℝ), 0] = 3 ^ 2 := by simp [sumSq]; norm_num
  rw [magnitude, h, Real.sqrt_sq (by norm_num)]

lemma magnitude_04 : magnitude [(0 : ℝ), 4] = 4 := by
  have h : sumSq [(0 : ℝ), 4] = 4 ^ 2 := by simp [sumSq]; norm_num
  rw [magnitude, h, Real.sqrt_sq (by norm_num)]

lemma magnitude_00 : magnitude [(0 : ℝ), 0] = 0 := by
  have h : sumSq [(0 : ℝ), 0] = 0 := by simp [sumSq]
  rw [magnitude, h, Real.sqrt_zero]

lemma magnitude_12 : magnitude [(1 : ℝ), 2] = Real.sqrt 5 := by
  have h : sumSq [(1 : ℝ), 2] = 5 := by simp [sumSq]; norm_num
  rw [magnitude, h]

lemma sqrt_nine : Real.sqrt 9 = 3 := by
  rw [show (9 : ℝ) = 3 ^ 2 by norm_num, Real.sqrt_sq (by norm_num)]

lemma sqrt_sixteen : Real.sqrt 16 = 4 := by
  rw [show (16 : ℝ) = 4 ^ 2 by norm_num, Real.sqrt_sq (by norm_num)]

/-- `acos(0) · 180/π = 90`. -/
lemma arccos_zero_degrees : Real.arccos 0 * (180 / Real.pi) = 90 := by
  rw [Real.arccos_zero]
  field_simp
  ring

/-- Evaluation of the spec's worked example `calculateSimilarity([3,0],[0,4])`. -/
lemma calc_34_eval :
    calculateCosineSimilarity [3, 0] [0, 4] = some ⟨0, 3, 4, 0, 90, 2⟩ := by
  have hd : dotProduct [(3 : ℝ), 0] [(0 : ℝ), 4] = 0 := by simp [dotProduct]
  have h := calc_main_branch [3, 0] [0, 4] (by simp) (by simp) (by simp)
    (by rw [magnitude_30]; norm_num) (by rw [magnitude_04]; norm_num)
  rw [h, magnitude_30, magnitude_04, hd]
  have hc : clamp ((0 : ℝ) / (3 * 4)) = 0 := by norm_num [clamp]
  rw [hc, arccos_zero_degrees]
  norm_num

/-- Evaluation of the spec's worked example `calculateSimilarity([0,0],[1,2])`. -/
lemma calc_0012_eval :
    calculateCosineSimilarity [0, 0] [1, 2] =
      some ⟨0, 0, Real.sqrt 5, 0, 0, 2⟩ := by
  have hd : dotProduct [(0 : ℝ), 0] [(1 : ℝ), 2] = 0 := by simp [dotProduct]
  have h := calc_zero_branch [0, 0] [1, 2] (by simp) (by simp) (by simp)
    (Or.inl magnitude_00)
  rw [h, magnitude_00, magnitude_12, hd]
  norm_num

/-- Lower clamp bound: `-1 ≤ Math.max(-1, Math.min(1, x))`. -/
lemma neg_one_le_clamp (x : ℝ) : -1 ≤ clamp x :=
  le_max_left _ _

/-- Upper clamp bound: `Math.max(-1, Math.min(1, x)) ≤ 1`. -/
lemma clamp_le_one (x : ℝ) : clamp x ≤ 1 :=
  max_le (by norm_num) (min_le_left _ _)

lemma angleDeg_nonneg (c : ℝ) : 0 ≤ Real.arccos c * (180 / Real.pi) :=
  mul_nonneg (Real.arccos_nonneg _) (by positivity)

lemma angleDeg_le_180 (c : ℝ) : Real.arccos c * (180 / Real.pi) ≤ 180 := by
  calc Real.arccos c * (180 / Real.pi)
      ≤ Real.pi * (180 / Real.pi) :=
        mul_le_mul_of_nonneg_right (Real.arccos_le_pi _) (by positivity)
    _ = 180 := by rw [mul_comm, div_mul_cancel₀ _ Real.pi_ne_zero]

/-- Squaring `1e200` overflows: `1e200 * 1e200 = 1e400 > Number.MAX_VALUE`. -/
lemma mulJ_1e200_overflow :
    mulJ (.num ((10 : ℝ) ^ 200)) (.num ((10 : ℝ) ^ 200)) = .inf false := by
  simp only [mulJ, ofReal]
  rw [if_pos]
  norm_num [maxDouble]

/-- Double-semantics evaluation of the source at `vecA = vecB = [1e200]`:
both squared sums overflow to `Infinity`, the zero-magnitude guard is not
taken (`Infinity === 0` is false), the quotient `Infinity / Infinity` is
`NaN`, and the clamp and `acos` propagate it into `cosineSimilarity` and
`angleDegrees`. -/
lemma calcJs_overflow_eval :
    calculateCosineSimilarityJs [.num ((10 : ℝ) ^ 200)] [.num ((10 : ℝ) ^ 200)] =
      some ⟨.inf false, .inf false, .inf false, .nan, .nan, 1⟩ := by
  have hdot : dotJ [.num ((10 : ℝ) ^ 200)] [.num ((10 : ℝ) ^ 200)] = .inf false := by
    simp [dotJ, mulJ_1e200_overflow, addJ]
  have hss : sumSqJ [.num ((10 : ℝ) ^ 200)] = .inf false := by
    simp [sumSqJ, mulJ_1e200_overflow, addJ]
  have hmag : magnitudeJ [.num ((10 : ℝ) ^ 200)] = .inf false := by
    simp [magnitudeJ, hss, sqrtJ]
  unfold calculateCosineSimilarityJs
  rw [if_neg (by simp), if_neg (by simp [hmag, isZeroJ])]
  rw [hdot, hmag]
  simp [mulJ, divJ, minJ, maxJ, acosJ]

/-- The JS clamp `Math.max(-1, Math.min(1, c))` sends `NaN` to `NaN` and
everything else (`±Infinity` included) into `[-1, 1]`. -/
lemma clampJ_cases (c : JsNum) :
    maxJ (.num (-1)) (minJ (.num 1) c) = .nan ∨
    ∃ x : ℝ, maxJ (.num (-1)) (minJ (.num 1) c) = .num x ∧ -1 ≤ x ∧ x ≤ 1 := by
  cases c with
  | nan => exact Or.inl rfl
  | inf b =>
    cases b with
    | true => exact Or.inr ⟨-1, rfl, le_refl _, by norm_num⟩
    | false => exact Or.inr ⟨max (-1) 1, rfl, le_max_left _ _, by norm_num⟩
  | num x =>
    exact Or.inr ⟨max (-1) (min 1 x), rfl, le_max_left _ _,
      max_le (by norm_num) (min_le_left _ _)⟩

/-- For a clamped finite value, the double-semantics angle computation
yields the exact `acos(x) · 180/π` (no step overflows). -/
lemma angleJ_eval (x : ℝ) (h1 : -1 ≤ x) (h2 : x ≤ 1) :
    mulJ (acosJ (.num x)) (divJ (.num 180) (.num Real.pi)) =
      .num (Real.arccos x * (180 / Real.pi)) := by
  have hπ3 : (3 : ℝ) < Real.pi := Real.pi_gt_three
  have hp1 : (0 : ℝ) < 180 / Real.pi := by positivity
  have hp2 : 180 / Real.pi ≤ 180 := by
    rw [div_le_iff₀ (by linarith)]
    nlinarith
  have hM : (180 : ℝ) ≤ maxDouble := by norm_num [maxDouble]
  have hacos : acosJ (.num x) = .num (Real.arccos x) := by
    simp only [acosJ]
    rw [if_neg (by push_neg; exact ⟨h1, h2⟩)]
  have hd : divJ (.num 180) (.num Real.pi) = .num (180 / Real.pi) := by
    simp only [divJ]
    rw [if_neg Real.pi_ne_zero]
    unfold ofReal
    rw [if_neg (not_lt.mpr (hp2.trans hM)), if_neg (not_lt.mpr (by linarith))]
  rw [hacos, hd]
  simp only [mulJ]
  unfold ofReal
  rw [if_neg (not_lt.mpr ((angleDeg_le_180 x).trans hM)),
    if_neg (not_lt.mpr (by linarith [angleDeg_nonneg x]))]

/-! ### Claims -/

/-- C1: for equal-length non-empty vectors whose Euclidean magnitudes are
both nonzero, `calculateCosineSimilarity` returns a result with
`dotProduct = Σ aᵢbᵢ`, `magnitudeA = √Σaᵢ²`, `magnitudeB = √Σbᵢ²`,
`cosineSimilarity` equal to `dotProduct / (magnitudeA·magnitudeB)` clamped
to `[-1, 1]`, and `angleDegrees = acos(clamped) · 180/π`; in particular on
`[3,0]` and `[0,4]` it yields `dotProduct = 0`, `magnitudeA = 3`,
`magnitudeB = 4`, `cosineSimilarity = 0`, `angleDegrees = 90`. -/
theorem calculateCosineSimilarity_main_formula :
    (∀ a b : List ℝ, a ≠ [] → b ≠ [] → a.length = b.length →
      magnitude a ≠ 0 → magnitude b ≠ 0 →
      calculateCosineSimilarity a b =
        some ⟨∑ i ∈ Finset.range a.length, a.getD i 0 * b.getD i 0,
          Real.sqrt (∑ i ∈ Finset.range a.length, a.getD i 0 ^ 2),
          Real.sqrt (∑ i ∈ Finset.range b.length, b.getD i 0 ^ 2),
          clamp ((∑ i ∈ Finset.range a.length, a.getD i 0 * b.getD i 0) /
            (Real.sqrt (∑ i ∈ Finset.range a.length, a.getD i 0 ^ 2) *
              Real.sqrt (∑ i ∈ Finset.range b.length, b.getD i 0 ^ 2))),
          Real.arccos (clamp ((∑ i ∈ Finset.range a.length, a.getD i 0 * b.getD i 0) /
            (Real.sqrt (∑ i ∈ Finset.range a.length, a.getD i 0 ^ 2) *
              Real.sqrt (∑ i ∈ Finset.range b.length, b.getD i 0 ^ 2)))) *
            (180 / Real.pi),
          a.length⟩) ∧
    calculateCosineSimilarity [3, 0] [0, 4] = some ⟨0, 3, 4, 0, 90, 2⟩ := by
  constructor
  · intro a b ha hb hlen hma hmb
    rw [calc_main_branch a b ha hb hlen hma hmb]
    simp only [magnitude, dotProduct_eq_sum_range a b hlen, sumSq_eq_sum_range]
  · exact calc_34_eval

/-- Witness for C1 at `[3,0]`, `[0,4]`. -/
theorem calculateCosineSimilarity_main_formula_witness :
    ([3, 0] : List ℝ) ≠ [] ∧ ([0, 4] : List ℝ) ≠ [] ∧
    ([3, 0] : List ℝ).length = ([0, 4] : List ℝ).length ∧
    magnitude [3, 0] ≠ 0 ∧ magnitude [0, 4] ≠ 0 ∧
    calculateCosineSimilarity [3, 0] [0, 4] = some ⟨0, 3, 4, 0, 90, 2⟩ := by
  have hma : magnitude [(3 : ℝ), 0] ≠ 0 := by rw [magnitude_30]; norm_num
  have hmb : magnitude [(0 : ℝ), 4] ≠ 0 := by rw [magnitude_04]; norm_num
  refine ⟨by simp, by simp, by simp, hma, hmb, ?_⟩
  have h := calculateCosineSimilarity_main_formula.1 [3, 0] [0, 4]
    (by simp) (by simp) (by simp) hma hmb
  rw [h]
  have h9 : (∑ i ∈ Finset.range ([3, 0] : List ℝ).length,
      ([3, 0] : List ℝ).getD i 0 ^ 2) = 9 := by
    simp [Finset.sum_range_succ]; norm_num
  have h16 : (∑ i ∈ Finset.range ([0, 4] : List ℝ).length,
      ([0, 4] : List ℝ).getD i 0 ^ 2) = 16 := by
    simp [Finset.sum_range_succ]; norm_num
  have h0 : (∑ i ∈ Finset.range ([3, 0] : List ℝ).length,
      ([3, 0] : List ℝ).getD i 0 * ([0, 4] : List ℝ).getD i 0) = 0 := by
    simp [Finset.sum_range_succ]
  rw [h9, h16, h0, sqrt_nine, sqrt_sixteen]
  have hc : clamp ((0 : ℝ) / (3 * 4)) = 0 := by norm_num [clamp]
  rw [hc, arccos_zero_degrees]
  norm_num

/-- C2: `calculateCosineSimilarity` returns `null` exactly when an input is
empty or the lengths differ; every other input pair gives a result. -/
theorem calculateCosineSimilarity_none_iff (a b : List ℝ) :
    calculateCosineSimilarity a b = none ↔
      a = [] ∨ b = [] ∨ a.length ≠ b.length := by
  unfold calculateCosineSimilarity
  by_cases h : a.length = 0 ∨ b.length = 0 ∨ a.length ≠ b.length
  · rw [if_pos h]
    simp only [List.length_eq_zero] at h
    simp [h]
  · rw [if_neg h]
    push_neg at h
    obtain ⟨h1, h2, h3⟩ := h
    constructor
    · intro hnone
      split_ifs at hnone
    · rintro (hc | hc | hc)
      · exact absurd (by simp [hc] : a.length = 0) h1
      · exact absurd (by simp [hc] : b.length = 0) h2
      · exact absurd h3 hc

/-- Witness for C2 at the spec's example `calculateSimilarity([],[])`. -/
theorem calculateCosineSimilarity_none_iff_witness :
    calculateCosineSimilarity ([] : List ℝ) ([] : List ℝ) = none :=
  (calculateCosineSimilarity_none_iff [] []).mpr (Or.inl rfl)

/-- C3: for equal-length non-empty vectors with a zero magnitude,
`calculateCosineSimilarity` returns a result with `cosineSimilarity = 0`
and `angleDegrees = 0` while the other fields are reported as computed; in
particular `[0,0]` vs `[1,2]` yields `cosineSimilarity = 0`,
`angleDegrees = 0`. -/
theorem calculateCosineSimilarity_zero_magnitude :
    (∀ a b : List ℝ, a ≠ [] → b ≠ [] → a.length = b.length →
      magnitude a = 0 ∨ magnitude b = 0 →
      calculateCosineSimilarity a b =
        some ⟨dotProduct a b, magnitude a, magnitude b, 0, 0, a.length⟩) ∧
    calculateCosineSimilarity [0, 0] [1, 2] =
      some ⟨0, 0, Real.sqrt 5, 0, 0, 2⟩ :=
  ⟨calc_zero_branch, calc_0012_eval⟩

/-- Witness for C3 at `[0,0]`, `[1,2]`. -/
theorem calculateCosineSimilarity_zero_magnitude_witness :
    ([0, 0] : List ℝ) ≠ [] ∧ ([1, 2] : List ℝ) ≠ [] ∧
    ([0, 0] : List ℝ).length = ([1, 2] : List ℝ).length ∧
    magnitude [(0 : ℝ), 0] = 0 ∧
    calculateCosineSimilarity [0, 0] [1, 2] =
      some ⟨dotProduct [0, 0] [1, 2], magnitude [0, 0], magnitude [1, 2], 0, 0,
        ([0, 0] : List ℝ).length⟩ :=
  ⟨by simp, by simp, by simp, magnitude_00,
    calculateCosineSimilarity_zero_magnitude.1 [0, 0] [1, 2]
      (by simp) (by simp) (by simp) (Or.inl magnitude_00)⟩

/-- C4, counterexample: the clamp invariant does not hold for all finite
inputs under double semantics. At the finite pair `vecA = vecB = [1e200]`
the squared sums overflow to `Infinity`, the zero-magnitude guard is not
taken, the quotient `Infinity / Infinity` is `NaN`, and the clamp and
`acos` propagate it: the returned `cosineSimilarity` and `angleDegrees`
are `NaN`, which is not a real number in `[-1, 1]` (or `[0, 180]`). -/
theorem calculateCosineSimilarityJs_overflow_nan :
    calculateCosineSimilarityJs [.num ((10 : ℝ) ^ 200)] [.num ((10 : ℝ) ^ 200)] =
      some ⟨.inf false, .inf false, .inf false, .nan, .nan, 1⟩ ∧
    ∀ x : ℝ, JsNum.nan ≠ JsNum.num x :=
  ⟨calcJs_overflow_eval, fun _ h => JsNum.noConfusion h⟩

/-- C4 (amended): in exact real arithmetic every non-null result satisfies
`cosineSimilarity ∈ [-1, 1]` and `angleDegrees ∈ [0, 180]`; under double
semantics the same holds for every non-null result except that both fields
are `NaN` when the quotient is `NaN` (possible for finite inputs via
overflow, the counterexample above) — the clamp absorbs every non-`NaN`
quotient, `±Infinity` included, but propagates `NaN`. -/
theorem calculateCosineSimilarity_range_invariant :
    (∀ (a b : List ℝ) (r : VectorResult), calculateCosineSimilarity a b = some r →
      -1 ≤ r.cosineSimilarity ∧ r.cosineSimilarity ≤ 1 ∧
      0 ≤ r.angleDegrees ∧ r.angleDegrees ≤ 180) ∧
    (∀ (a b : List JsNum) (r : VectorResultJs),
      calculateCosineSimilarityJs a b = some r →
      (r.cosineSimilarity = JsNum.nan ∧ r.angleDegrees = JsNum.nan) ∨
      (∃ x y : ℝ, r.cosineSimilarity = JsNum.num x ∧ -1 ≤ x ∧ x ≤ 1 ∧
        r.angleDegrees = JsNum.num y ∧ 0 ≤ y ∧ y ≤ 180)) := by
  constructor
  · intro a b r h
    unfold calculateCosineSimilarity at h
    split_ifs at h with h1 h2
    · obtain rfl : r = ⟨dotProduct a b, magnitude a, magnitude b, 0, 0, a.length⟩ :=
        (Option.some.inj h).symm
      exact ⟨by norm_num, by norm_num, by norm_num, by norm_num⟩
    · obtain rfl : r = ⟨dotProduct a b, magnitude a, magnitude b,
          clamp (dotProduct a b / (magnitude a * magnitude b)),
          Real.arccos (clamp (dotProduct a b / (magnitude a * magnitude b))) *
            (180 / Real.pi),
          a.length⟩ := (Option.some.inj h).symm
      exact ⟨neg_one_le_clamp _, clamp_le_one _, angleDeg_nonneg _, angleDeg_le_180 _⟩
  · intro a b r h
    unfold calculateCosineSimilarityJs at h
    split_ifs at h with h1 h2
    · obtain rfl : r = ⟨dotJ a b, magnitudeJ a, magnitudeJ b, .num 0, .num 0, a.length⟩ :=
        (Option.some.inj h).symm
      exact Or.inr ⟨0, 0, rfl, by norm_num, by norm_num, rfl, by norm_num, by norm_num⟩
    · obtain rfl : r = ⟨dotJ a b, magnitudeJ a, magnitudeJ b,
          maxJ (.num (-1)) (minJ (.num 1)
            (divJ (dotJ a b) (mulJ (magnitudeJ a) (magnitudeJ b)))),
          mulJ (acosJ (maxJ (.num (-1)) (minJ (.num 1)
              (divJ (dotJ a b) (mulJ (magnitudeJ a) (magnitudeJ b))))))
            (divJ (.num 180) (.num Real.pi)),
          a.length⟩ := (Option.some.inj h).symm
      rcases clampJ_cases (divJ (dotJ a b) (mulJ (magnitudeJ a) (magnitudeJ b))) with
        hnan | ⟨x, hx, hx1, hx2⟩
      · refine Or.inl ⟨hnan, ?_⟩
        show mulJ (acosJ _) _ = _
        rw [hnan]
        simp [acosJ, mulJ]
      · refine Or.inr ⟨x, Real.arccos x * (180 / Real.pi), hx, hx1, hx2, ?_,
          angleDeg_nonneg x, angleDeg_le_180 x⟩
        show mulJ (acosJ _) _ = _
        rw [hx]
        exact angleJ_eval x hx1 hx2

/-- Witness for C4 (amended): the exact part at `[3,0]`, `[0,4]`, and the
double-semantics part at the overflowing pair `[1e200]`, `[1e200]`, where
the `NaN` disjunct holds. -/
theorem calculateCosineSimilarity_range_invariant_witness :
    (calculateCosineSimilarity [3, 0] [0, 4] = some ⟨0, 3, 4, 0, 90, 2⟩ ∧
      -1 ≤ (0 : ℝ) ∧ (0 : ℝ) ≤ 1 ∧ 0 ≤ (90 : ℝ) ∧ (90 : ℝ) ≤ 180) ∧
    (calculateCosineSimilarityJs [.num ((10 : ℝ) ^ 200)] [.num ((10 : ℝ) ^ 200)] =
        some ⟨.inf false, .inf false, .inf false, .nan, .nan, 1⟩ ∧
      JsNum.nan = JsNum.nan ∧ JsNum.nan = JsNum.nan) := by
  constructor
  · refine ⟨calc_34_eval, ?_⟩
    have h := calculateCosineSimilarity_range_invariant.1 [3, 0] [0, 4]
      ⟨0, 3, 4, 0, 90, 2⟩ calc_34_eval
    simpa using h
  · refine ⟨calcJs_overflow_eval, ?_⟩
    have h := calculateCosineSimilarity_range_invariant.2
      [.num ((10 : ℝ) ^ 200)] [.num ((10 : ℝ) ^ 200)]
      ⟨.inf false, .inf false, .inf false, .nan, .nan, 1⟩ calcJs_overflow_eval
    rcases h with ⟨h1, h2⟩ | ⟨x, y, hx, _⟩
    · exact ⟨h1, h2⟩
    · exact JsNum.noConfusion hx

/-- Pitch stays in `[-90, 90]` under one `setRotation` update. -/
lemma updateRotation_pitch_bounds (prev : Rotation) (dx dy : ℝ) :
    -90 ≤ (updateRotation prev dx dy).x ∧ (updateRotation prev dx dy).x ≤ 90 :=
  ⟨le_max_left _ _, max_le (by norm_num) (min_le_left _ _)⟩

/-- Folding drag updates preserves the pitch bounds. -/
lemma pitch_foldl_bounds (ds : List (ℝ × ℝ)) :
    ∀ st : Rotation, -90 ≤ st.x → st.x ≤ 90 →
      -90 ≤ (ds.foldl (fun s d => updateRotation s d.1 d.2) st).x ∧
      (ds.foldl (fun s d => updateRotation s d.1 d.2) st).x ≤ 90 := by
  induction ds with
  | nil => exact fun st h1 h2 => ⟨h1, h2⟩
  | cons d ds ih =>
    intro st _ _
    simp only [List.foldl_cons]
    exact ih _ (updateRotation_pitch_bounds st d.1 d.2).1
      (updateRotation_pitch_bounds st d.1 d.2).2

/-- C5: `parseVectorString` splits on maximal runs of whitespace/commas,
parses each token as a float, silently discards unparsable tokens and
returns the valid numbers in order; `"2, 1" ↦ [2, 1]`,
`"1 2  3" ↦ [1, 2, 3]`, `"a, 2, b" ↦ [2]`, and empty or all-invalid input
yields the empty sequence. -/
theorem parseVectorString_spec :
    (∀ s : String, parseVectorString s =
      (jsSplit s.data).filterMap (fun t => jsParseFloat (jsTrim t))) ∧
    parseVectorString "2, 1" = [2, 1] ∧
    parseVectorString "1 2  3" = [1, 2, 3] ∧
    parseVectorString "a, 2, b" = [2] ∧
    parseVectorString "" = [] ∧
    (∀ s : String, (∀ t ∈ jsSplit s.data, jsParseFloat (jsTrim t) = none) →
      parseVectorString s = []) := by
  have hpipe : ∀ s : String, parseVectorString s =
      (jsSplit s.data).filterMap (fun t => jsParseFloat (jsTrim t)) := by
    intro s
    unfold parseVectorString
    rw [List.filterMap_map]
    rfl
  refine ⟨hpipe, ?_, ?_, ?_, rfl, ?_⟩
  · have h : parseVectorString "2, 1" = [ratVal false 2 0 0 0, ratVal false 1 0 0 0] := rfl
    rw [h]; norm_num [ratVal]
  · have h : parseVectorString "1 2  3" =
        [ratVal false 1 0 0 0, ratVal false 2 0 0 0, ratVal false 3 0 0 0] := rfl
    rw [h]; norm_num [ratVal]
  · have h : parseVectorString "a, 2, b" = [ratVal false 2 0 0 0] := rfl
    rw [h]; norm_num [ratVal]
  · intro s hall
    rw [hpipe s]
    exact List.filterMap_eq_nil_iff.mpr hall

/-- Witness for C5's all-invalid case at `"a, b"`. -/
theorem parseVectorString_spec_witness :
    (∀ t ∈ jsSplit "a, b".data, jsParseFloat (jsTrim t) = none) ∧
    parseVectorString "a, b" = [] := by
  have hall : ∀ t ∈ jsSplit "a, b".data, jsParseFloat (jsTrim t) = none := by decide
  exact ⟨hall, parseVectorString_spec.2.2.2.2.2 "a, b" hall⟩

/-- C6: `parseVectorString` and `calculateCosineSimilarity` are total: every
string parses to a list, every vector pair yields `null` or a result, and
every well-shaped pair (equal nonzero lengths, any values, zero vectors
included) yields a non-null result. -/
theorem mathUtils_total :
    (∀ s : String, ∃ v : List ℚ, parseVectorString s = v) ∧
    (∀ a b : List ℝ, calculateCosineSimilarity a b = none ∨
      ∃ r, calculateCosineSimilarity a b = some r) ∧
    (∀ a b : List ℝ, a ≠ [] → b ≠ [] → a.length = b.length →
      ∃ r, calculateCosineSimilarity a b = some r) := by
  refine ⟨fun s => ⟨_, rfl⟩, fun a b => ?_, fun a b ha hb hlen => ?_⟩
  · cases h : calculateCosineSimilarity a b with
    | none => exact Or.inl rfl
    | some r => exact Or.inr ⟨r, rfl⟩
  · by_cases hm : magnitude a = 0 ∨ magnitude b = 0
    · exact ⟨_, calc_zero_branch a b ha hb hlen hm⟩
    · push_neg at hm
      exact ⟨_, calc_main_branch a b ha hb hlen hm.1 hm.2⟩

/-- Witness for C6 at the degenerate-but-valid pair `[0,0]`, `[1,2]`. -/
theorem mathUtils_total_witness :
    ([0, 0] : List ℝ) ≠ [] ∧ ([1, 2] : List ℝ) ≠ [] ∧
    ([0, 0] : List ℝ).length = ([1, 2] : List ℝ).length ∧
    ∃ r, calculateCosineSimilarity [0, 0] [1, 2] = some r :=
  ⟨by simp, by simp, by simp,
    mathUtils_total.2.2 [0, 0] [1, 2] (by simp) (by simp) (by simp)⟩

/-- C7: both functions are deterministic: equal inputs give equal outputs
(purity holds by construction, as both embed as state-free functions of
their arguments, matching the source which reads no outside state). -/
theorem mathUtils_deterministic :
    (∀ s₁ s₂ : String, s₁ = s₂ → parseVectorString s₁ = parseVectorString s₂) ∧
    (∀ a₁ b₁ a₂ b₂ : List ℝ, a₁ = a₂ → b₁ = b₂ →
      calculateCosineSimilarity a₁ b₁ = calculateCosineSimilarity a₂ b₂) :=
  ⟨fun s₁ s₂ h => by rw [h], fun a₁ b₁ a₂ b₂ h1 h2 => by rw [h1, h2]⟩

/-- Witness for C7 at concrete inputs. -/
theorem mathUtils_deterministic_witness :
    ("2, 1" : String) = "2, 1" ∧
    parseVectorString "2, 1" = parseVectorString "2, 1" ∧
    calculateCosineSimilarity [3, 0] [0, 4] = calculateCosineSimilarity [3, 0] [0, 4] :=
  ⟨rfl, mathUtils_deterministic.1 "2, 1" "2, 1" rfl,
    mathUtils_deterministic.2 [3, 0] [0, 4] [3, 0] [0, 4] rfl rfl⟩

/-- C8: the rotation pitch starts at `-20`, one mouse-move update always
lands in `[-90, 90]`, so pitch is in `[-90, 90]` in every reachable
rotation state, while the yaw reaches every real value (unbounded). -/
theorem rotation_pitch_invariant :
    initialRotation.x = -20 ∧
    (∀ (prev : Rotation) (dx dy : ℝ),
      -90 ≤ (updateRotation prev dx dy).x ∧ (updateRotation prev dx dy).x ≤ 90) ∧
    (∀ ds : List (ℝ × ℝ), -90 ≤ (applyDrags ds).x ∧ (applyDrags ds).x ≤ 90) ∧
    (∀ yv : ℝ, ∃ ds : List (ℝ × ℝ), (applyDrags ds).y = yv) := by
  refine ⟨rfl, updateRotation_pitch_bounds, fun ds => ?_, fun yv => ?_⟩
  · exact pitch_foldl_bounds ds initialRotation (by norm_num [initialRotation])
      (by norm_num [initialRotation])
  · refine ⟨[((yv - 45) * 2, 0)], ?_⟩
    simp only [applyDrags, List.foldl_cons, List.foldl_nil, updateRotation,
      initialRotation]
    ring

/-- C9: the 2D projector maps `(x, y)` to
`(center + x·scale, center − y·scale)` with
`scale = (center − 20) / maxVal`, `maxVal = 1.2 · max(|a₀|,|a₁|,|b₀|,|b₁|,1)`,
and the floor of 1 inside the max makes the scale positive (and finite) for
all inputs. -/
theorem getCoord_spec :
    (∀ a0 a1 b0 b1 x y : ℝ, getCoord a0 a1 b0 b1 x y =
      (center2D + x * scale2D a0 a1 b0 b1, center2D - y * scale2D a0 a1 b0 b1)) ∧
    (∀ a0 a1 b0 b1 : ℝ,
      scale2D a0 a1 b0 b1 = (center2D - 20) / maxVal2D a0 a1 b0 b1 ∧
      maxVal2D a0 a1 b0 b1 = 1.2 * max (max (max (max |a0| |a1|) |b0|) |b1|) 1 ∧
      0 < scale2D a0 a1 b0 b1) := by
  refine ⟨fun _ _ _ _ _ _ => rfl, fun a0 a1 b0 b1 => ⟨rfl, mul_comm _ _, ?_⟩⟩
  have hM : (1 : ℝ) ≤ max (max (max (max |a0| |a1|) |b0|) |b1|) 1 := le_max_right _ _
  have hpos : 0 < maxVal2D a0 a1 b0 b1 :=
    mul_pos (lt_of_lt_of_le one_pos hM) (by norm_num)
  exact div_pos (by norm_num [center2D]) hpos

/-- C10: a token with a valid numeric head followed by trailing garbage is
not discarded: its numeric head value is kept (`parseFloat("2px") = 2`);
only tokens with no parsable numeric head are dropped. -/
theorem parseVectorString_numeric_head :
    jsParseFloat "2px".data = some 2 ∧
    parseVectorString "2px" = [2] ∧
    parseVectorString "a, 2px, c" = [2] ∧
    jsParseFloat "px".data = none := by
  refine ⟨?_, ?_, ?_, rfl⟩
  · have h : jsParseFloat "2px".data = some (ratVal false 2 0 0 0) := rfl
    rw [h]; norm_num [ratVal]
  · have h : parseVectorString "2px" = [ratVal false 2 0 0 0] := rfl
    rw [h]; norm_num [ratVal]
  · have h : parseVectorString "a, 2px, c" = [ratVal false 2 0 0 0] := rfl
    rw [h]; norm_num [ratVal]

end VectorVibe
